import Mathlib

/-!
Verification of the task-orchestration and stream-reconciliation layer of the
web-v19 repository: the Suna generate/status/result API routes, the SSE stream
accumulation loop, the story-content parser and the proxy-database rate
limiter.  Each definition is a shallow embedding of the corresponding
TypeScript function; route handlers become pure functions from an environment
of collaborator outcomes (auth, database lookups, external HTTP calls) and a
database state to a response value plus the updated state.  Strings are
manipulated through their character lists so that every definition evaluates
by kernel reduction.
-/

/-! ## Character-list string helpers

JavaScript `String.prototype.trim`, `split('\n')` and `startsWith` modelled
over `List Char`. -/

/-- `s.trim()`: strip leading and trailing whitespace. -/
def trimChars (cs : List Char) : List Char :=
  ((cs.dropWhile Char.isWhitespace).reverse.dropWhile Char.isWhitespace).reverse

/-- `s.split('\n')`: split a character sequence at every newline; a trailing
newline yields a final empty piece, as in JavaScript. -/
def splitNl : List Char → List (List Char)
  | [] => [[]]
  | c :: cs =>
    let r := splitNl cs
    if c = '\n' then [] :: r
    else
      match r with
      | l :: ls => (c :: l) :: ls
      | [] => [[c]]

/-- `line.startsWith(marker)`. -/
def strStarts (line marker : List Char) : Bool := marker.isPrefixOf line

/-! ## Minimal JSON decoder for stream frames

The result route runs `JSON.parse(line.slice(6))` on each `data: ` line and
reads the `type`, `content` and `role` properties of the decoded object.  The
streamed frames are flat JSON objects with string keys and string values, so
`JSON.parse` is modelled as a strict decoder of exactly that shape (string
values may use the `\n`, `\"` and `\\` escapes); any other input — in
particular any truncated frame — decodes to `none`, which models
`JSON.parse` throwing. -/

/-- Scan a JSON string literal body up to its closing quote, handling the
`\n`, `\"` and `\\` escapes; `none` on an unterminated or unsupported
literal. -/
def strLitAux : List Char → List Char → Option (String × List Char)
  | [], _ => none
  | '"' :: rest, acc => some (String.mk acc.reverse, rest)
  | '\\' :: 'n' :: rest, acc => strLitAux rest ('\n' :: acc)
  | '\\' :: '"' :: rest, acc => strLitAux rest ('"' :: acc)
  | '\\' :: '\\' :: rest, acc => strLitAux rest ('\\' :: acc)
  | '\\' :: _, _ => none
  | c :: rest, acc => strLitAux rest (c :: acc)

/-- Parse a JSON string literal, returning its value and the rest of the
input. -/
def strLit : List Char → Option (String × List Char)
  | '"' :: rest => strLitAux rest []
  | _ => none

/-- Parse the members of a flat JSON object after the opening brace; the
object must close the input exactly.  Fuel-indexed to stay structural. -/
def membersAux : Nat → List Char → Option (List (String × String))
  | 0, _ => none
  | fuel + 1, cs =>
    match strLit cs with
    | none => none
    | some (k, rest) =>
      match rest with
      | ':' :: rest2 =>
        match strLit rest2 with
        | none => none
        | some (v, rest3) =>
          match rest3 with
          | '}' :: rest4 => if rest4.isEmpty then some [(k, v)] else none
          | ',' :: rest4 =>
            match membersAux fuel rest4 with
            | some kvs => some ((k, v) :: kvs)
            | none => none
          | _ => none
      | _ => none

/-- `JSON.parse` restricted to flat string-valued objects. -/
def jsonFlatObj (cs : List Char) : Option (List (String × String)) :=
  match cs with
  | '{' :: '}' :: [] => some []
  | '{' :: rest => membersAux (rest.length + 1) rest
  | _ => none

/-- JavaScript property access `obj.k` on a decoded frame: a missing property
is `undefined`, which compares unequal to every string and is falsy; both are
modelled by the empty string, which no frame uses as a key value of
interest. -/
def lookupKV (kvs : List (String × String)) (k : String) : String :=
  match kvs.find? (fun kv => kv.1 == k) with
  | some kv => kv.2
  | none => ""

/-! ## StreamReconciler

The SSE read loop of the result route (`part_001`, lines 114–147): each read
chunk is decoded and split at newlines, every line starting with `data: ` has
its payload JSON-decoded, decode failures are skipped, and for payloads with
`type === 'message'` and truthy `content` the payload is recorded and, when
`role === 'assistant'`, its content appended to the accumulator.  The loop
keeps no carry-over between chunks: each chunk's lines are processed
independently. -/

/-- The `data: ` line marker. -/
def dataMarker : List Char := "data: ".data

/-- Accumulator of the read loop: `result` and `messages`. -/
structure RecState where
  result : String
  messages : List (List (String × String))
deriving DecidableEq

/-- Process one line of a chunk, mirroring the inner `for` body. -/
def processLine (st : RecState) (line : List Char) : RecState :=
  if strStarts line dataMarker then
    match jsonFlatObj (line.drop 6) with
    | some payload =>
      if lookupKV payload ("type") == "message" && lookupKV payload ("content") != "" then
        let st1 : RecState := { st with messages := st.messages ++ [payload] }
        if lookupKV payload ("role") == "assistant" then
          { st1 with result := st1.result ++ lookupKV payload ("content") }
        else st1
      else st
    | none => st
  else st

/-- Process one read chunk: `chunk.split('\n')` then the line loop. -/
def processChunk (st : RecState) (chunk : String) : RecState :=
  (splitNl chunk.data).foldl processLine st

/-- Consume the whole stream, one read chunk at a time. -/
def reconcile (chunks : List String) : RecState :=
  chunks.foldl processChunk { result := "", messages := [] }

/-! ## ContentParser

`parseStoryContent` (`part_001`, lines 316–348). -/

/-- The `标题：` line marker. -/
def titleMarker : List Char := "标题：".data

/-- The `文字：` line marker. -/
def textMarker : List Char := "文字：".data

/-- The `图片：` line marker. -/
def imageMarker : List Char := "图片：".data

/-- A page under construction or in the output: `{ text, image }`. -/
structure StoryPage where
  text : String
  image : String
deriving DecidableEq

/-- Parser output: `{ title, pages }`. -/
structure StoryData where
  title : String
  pages : List StoryPage
deriving DecidableEq

/-- Parser cursor state: title so far, closed pages, current open page. -/
structure PState where
  title : String
  pages : List StoryPage
  current : Option StoryPage
deriving DecidableEq

/-- `line.match(/^第\d+页：?$/)`: the whole line is `第`, one or more ASCII
digits, `页`, and an optional `：`.  The digits are only matched, never
extracted. -/
def isPageHeader (line : List Char) : Bool :=
  match line with
  | [] => false
  | c :: rest =>
    c == '第' &&
    !(rest.takeWhile Char.isDigit).isEmpty &&
    ((rest.dropWhile Char.isDigit) == ['页'] || (rest.dropWhile Char.isDigit) == ['页', '：'])

/-- `if (currentPage && currentPage.text && currentPage.image)
pages.push(currentPage)`: close the current page, appending it only when both
fields are non-empty. -/
def closePage (pages : List StoryPage) (current : Option StoryPage) : List StoryPage :=
  match current with
  | some p => if p.text ≠ "" ∧ p.image ≠ "" then pages ++ [p] else pages
  | none => pages

/-- One iteration of the parser's line loop.  `line.replace(marker, '')` with
the line known to start with `marker` removes exactly that prefix, so it is
modelled as dropping `marker.length` characters before trimming. -/
def parseStep (st : PState) (line : List Char) : PState :=
  if strStarts line titleMarker then
    { st with title := String.mk (trimChars (line.drop titleMarker.length)) }
  else if isPageHeader line then
    { st with pages := closePage st.pages st.current, current := some { text := "", image := "" } }
  else if strStarts line textMarker then
    match st.current with
    | some p => { st with current := some { p with text := String.mk (trimChars (line.drop textMarker.length)) } }
    | none => st
  else if strStarts line imageMarker then
    match st.current with
    | some p => { st with current := some { p with image := String.mk (trimChars (line.drop imageMarker.length)) } }
    | none => st
  else st

/-- `parseStoryContent`: split into lines, trim, drop blank lines, run the
line loop, then close the last open page. -/
def parseStoryContent (content : String) : StoryData :=
  let lines := ((splitNl content.data).map trimChars).filter (fun l => 0 < l.length)
  let st := lines.foldl parseStep { title := "", pages := [], current := none }
  { title := st.title, pages := closePage st.pages st.current }

/-! ## Storybook page rows

The `storyData.pages.map((page, index) => ({ storybook_id, page_number:
index + 1, content: page.text, image_description: page.image }))` mapping of
the result route (`part_001`, lines 203–209). -/

/-- A `storybook_pages` row (timestamp column elided). -/
structure PageRow where
  storybook_id : String
  page_number : Nat
  content : String
  image_description : String
deriving DecidableEq

/-- Index-carrying recursion behind the `map` with index. -/
def storybookPageRowsAux (sid : String) : Nat → List StoryPage → List PageRow
  | _, [] => []
  | i, p :: ps =>
    { storybook_id := sid, page_number := i + 1, content := p.text, image_description := p.image }
      :: storybookPageRowsAux sid (i + 1) ps

/-- The page rows inserted for a new storybook: numbered `1, 2, …` by position
in the parsed pages list. -/
def storybookPageRows (sid : String) (pages : List StoryPage) : List PageRow :=
  storybookPageRowsAux sid 0 pages

/-! ## RateLimiter

`ProxyDatabase.checkRateLimit` (`src/libs/proxy-db/index.ts`, lines 130–175).
Time is in minutes.  The state is the `api_rate_limits` row for the fixed
(user, endpoint) pair, if any; a superseded row can never again match the
one-hour window filter, so the insert that replaces it is modelled as
replacement.  The `fault` flag injects a fetch error whose code is not
`PGRST116`. -/

/-- An `api_rate_limits` row for one (user, endpoint) pair. -/
structure WindowRow where
  request_count : Nat
  window_start : Nat
deriving DecidableEq

/-- The `gte('window_start', now - 60 minutes)` filter: over the integers
`window_start ≥ now - 60` is `now ≤ window_start + 60`. -/
def windowActive (now : Nat) (r : WindowRow) : Bool := decide (now ≤ r.window_start + 60)

/-- Outcome of the `.single()` fetch: a row in the window, no row
(`PGRST116`), or any other storage error. -/
inductive RateFetch
  | found (r : WindowRow)
  | missing
  | storageErr
deriving DecidableEq

/-- The window lookup, with an injectable storage fault. -/
def rateLookup (now : Nat) (st : Option WindowRow) (fault : Bool) : RateFetch :=
  if fault then .storageErr
  else
    match st with
    | some r => if windowActive now r then .found r else .missing
    | none => .missing

/-- `checkRateLimit`: storage error ⇒ allow and leave the state alone
(fail-open); row at or above the ceiling ⇒ deny without writing; row below
the ceiling ⇒ increment and allow; no row ⇒ insert a fresh row with count 1
starting now and allow. -/
def checkRateLimit (now maxRequests : Nat) (st : Option WindowRow) (fault : Bool) :
    Bool × Option WindowRow :=
  match rateLookup now st fault with
  | .storageErr => (true, st)
  | .found r =>
    if maxRequests ≤ r.request_count then (false, st)
    else (true, some { request_count := r.request_count + 1, window_start := r.window_start })
  | .missing => (true, some { request_count := 1, window_start := now })

/-- A sequence of fault-free rate-limit checks at the given times, threading
the state and collecting each verdict. -/
def reqSeq (st : Option WindowRow) (c : Nat) : List Nat → List Bool × Option WindowRow
  | [] => ([], st)
  | t :: ts =>
    let r1 := checkRateLimit t c st false
    let r2 := reqSeq r1.2 c ts
    (r1.1 :: r2.1, r2.2)

/-! ## Shared row types for the route models -/

/-- A `story_generation_tasks` row (timestamp columns elided). -/
structure TaskRow where
  id : String
  user_id : String
  status : String
  story_description : String
  progress : Nat
  error_message : Option String
  suna_thread_id : Option String
  suna_agent_run_id : Option String
deriving DecidableEq

/-- A `suna_task_mapping` row (timestamps and raw payload columns elided). -/
structure MappingRow where
  local_task_id : String
  suna_thread_id : Option String
  suna_agent_run_id : Option String
  status : String
  error_message : Option String
  retry_count : Nat
  max_retries : Nat
deriving DecidableEq

/-- A `storybooks` row (timestamp column elided). -/
structure StorybookRow where
  id : String
  title : String
  description : String
  generation_task_id : String
deriving DecidableEq

/-! ## Result route

`GET /api/suna/result` (`part_001`, lines 5–313).  The environment carries
the outcome of every collaborator call the handler makes, in source order:
the query parameter, the authenticated user, the rate-limit verdict, the
owner-scoped task lookup, the mapping lookup, the session JWT, whether the
stream fetch succeeded, the read chunks of the stream body, the id assigned
to a newly inserted storybook row, and whether the storybook and page
inserts succeed.  The database state is the part of the main database the
handler writes: storybook rows, page rows and user-storybook links. -/

/-- Mutable tables touched by the result route. -/
structure ResultDB where
  storybooks : List StorybookRow
  storybook_pages : List PageRow
  user_storybooks : List (String × String)
deriving DecidableEq

/-- The response bodies the result route can produce, one constructor per
`return` site. -/
inductive ResultResponse
  | missingTaskId
  | unauthorized
  | rateLimited
  | taskNotFound
  | notCompleted (status : String) (errMsg : Option String)
  | mappingNotFound
  | noSession
  | existing (sb : StorybookRow) (pages : List PageRow) (raw : String)
  | created (sb : StorybookRow) (pages : List PageRow) (raw : String)
  | parseFailed (raw : String)
  | fetchFailed
deriving DecidableEq

/-- HTTP status code attached to each result-route response. -/
def resultStatusCode : ResultResponse → Nat
  | .missingTaskId => 400
  | .unauthorized => 401
  | .rateLimited => 429
  | .taskNotFound => 404
  | .notCompleted _ _ => 200
  | .mappingNotFound => 404
  | .noSession => 401
  | .existing _ _ _ => 200
  | .created _ _ _ => 200
  | .parseFailed _ => 200
  | .fetchFailed => 500

/-- Observable side effects of one result-route call: whether the result
stream was fetched and whether `parseStoryContent` ran. -/
structure REffects where
  streamOpened : Bool
  parsedRan : Bool
deriving DecidableEq

/-- Collaborator outcomes for one result-route call. -/
structure ResultEnv where
  taskId : Option String
  authUser : Option String
  rateOk : Bool
  task : Option TaskRow
  mapping : Option MappingRow
  jwt : Bool
  streamOk : Bool
  chunks : List String
  newStorybookId : String
  storybookInsertOk : Bool
  pagesInsertOk : Bool

/-- The result-route handler.  A failed storybook or pages insert throws,
landing in the `catch (sunaError)` block, which responds 500; the rows
already written stay written (no transaction wraps the inserts). -/
def resultGET (env : ResultEnv) (db : ResultDB) : ResultResponse × ResultDB × REffects :=
  match env.taskId with
  | none => (.missingTaskId, db, ⟨false, false⟩)
  | some tid =>
    match env.authUser with
    | none => (.unauthorized, db, ⟨false, false⟩)
    | some uid =>
      if !env.rateOk then (.rateLimited, db, ⟨false, false⟩)
      else
        match env.task with
        | none => (.taskNotFound, db, ⟨false, false⟩)
        | some task =>
          if task.status != "completed" then
            (.notCompleted task.status task.error_message, db, ⟨false, false⟩)
          else
            match env.mapping with
            | none => (.mappingNotFound, db, ⟨false, false⟩)
            | some m =>
              match m.suna_agent_run_id with
              | none => (.mappingNotFound, db, ⟨false, false⟩)
              | some _run =>
                if !env.jwt then (.noSession, db, ⟨false, false⟩)
                else if !env.streamOk then (.fetchFailed, db, ⟨true, false⟩)
                else
                  let raw := (reconcile env.chunks).result
                  let storyData := parseStoryContent raw
                  match db.storybooks.find? (fun sb => sb.generation_task_id == tid) with
                  | some sb =>
                    (.existing sb (db.storybook_pages.filter (fun p => p.storybook_id == sb.id)) raw,
                      db, ⟨true, true⟩)
                  | none =>
                    if storyData.title ≠ "" ∧ 0 < storyData.pages.length then
                      if !env.storybookInsertOk then (.fetchFailed, db, ⟨true, true⟩)
                      else
                        let sb : StorybookRow :=
                          { id := env.newStorybookId, title := storyData.title,
                            description := task.story_description, generation_task_id := tid }
                        let db1 := { db with storybooks := db.storybooks ++ [sb] }
                        let rows := storybookPageRows sb.id storyData.pages
                        if !env.pagesInsertOk then (.fetchFailed, db1, ⟨true, true⟩)
                        else
                          (.created sb rows raw,
                            { db1 with
                                storybook_pages := db1.storybook_pages ++ rows,
                                user_storybooks := db1.user_storybooks ++ [(uid, sb.id)] },
                            ⟨true, true⟩)
                    else (.parseFailed raw, db, ⟨true, true⟩)

/-! ## Status route

`GET /api/suna/status` (`part_000`, lines 47–242). -/

/-- Outcome of the `agent-run` status poll: non-success HTTP response, a
thrown error, or a decoded body with its `status` and `error` fields. -/
inductive PollOutcome
  | pollNotOk
  | pollThrew (msg : String)
  | pollOk (status : String) (error : Option String)
deriving DecidableEq

/-- The response bodies the status route can produce. -/
inductive StatusResponse
  | missingTaskId
  | unauthorized
  | rateLimited
  | taskNotFound
  | mappingMissing (taskStatus : String)
  | statusOk (status : String) (progress : Nat) (errMsg : Option String)
      (threadId runId : Option String)
deriving DecidableEq

/-- HTTP status code attached to each status-route response.  Note the
mapping-missing body is returned with `{ status: 200 }`. -/
def statusStatusCode : StatusResponse → Nat
  | .missingTaskId => 400
  | .unauthorized => 401
  | .rateLimited => 429
  | .taskNotFound => 404
  | .mappingMissing _ => 200
  | .statusOk _ _ _ _ _ => 200

/-- Collaborator outcomes for one status-route call. -/
structure StatusEnv where
  taskId : Option String
  authUser : Option String
  rateOk : Bool
  task : Option TaskRow
  mapping : Option MappingRow
  jwt : Bool
  poll : PollOutcome

/-- The status-route handler, returning the response plus the post-call task
and mapping rows (timestamp writes elided).  The poll runs only when the task
is `processing`, the mapping has an agent-run id, and a session JWT exists;
a non-success poll response or a thrown poll error leaves both rows
untouched and the handler still answers with the current local state. -/
def statusGET (env : StatusEnv) : StatusResponse × Option TaskRow × Option MappingRow :=
  match env.taskId with
  | none => (.missingTaskId, env.task, env.mapping)
  | some _tid =>
    match env.authUser with
    | none => (.unauthorized, env.task, env.mapping)
    | some _uid =>
      if !env.rateOk then (.rateLimited, env.task, env.mapping)
      else
        match env.task with
        | none => (.taskNotFound, none, env.mapping)
        | some task =>
          match env.mapping with
          | none => (.mappingMissing task.status, some task, none)
          | some m =>
            let current :=
              (StatusResponse.statusOk task.status task.progress task.error_message
                  m.suna_thread_id m.suna_agent_run_id,
                some task, some m)
            if task.status == "processing" && m.suna_agent_run_id.isSome then
              if env.jwt then
                match env.poll with
                | .pollOk s e =>
                  if s == "completed" || s == "failed" then
                    let ns := if s == "completed" then "completed" else "failed"
                    let task1 := { task with status := ns, error_message := e }
                    let m1 := { m with status := ns, error_message := e }
                    (StatusResponse.statusOk task1.status task.progress task1.error_message
                        m.suna_thread_id m.suna_agent_run_id,
                      some task1, some m1)
                  else current
                | .pollNotOk => current
                | .pollThrew _ => current
              else current
            else current

/-- Whether the poll reported a terminal external status (a poll only happens
when a session JWT exists). -/
def pollTerminal : Bool → PollOutcome → Bool
  | true, .pollOk s _ => s == "completed" || s == "failed"
  | _, _ => false

/-- The local status written on a terminal poll. -/
def terminalStatusOf : PollOutcome → String
  | .pollOk s _ => if s == "completed" then "completed" else "failed"
  | _ => ""

/-- The external error text mirrored on a terminal poll. -/
def pollErrOf : PollOutcome → Option String
  | .pollOk _ e => e
  | _ => none

/-! ## Generate route

`POST /api/suna/generate` (`src/app/api/suna/generate/route.ts`, lines
6–300). -/

/-- Outcome of the `agent/initiate` call: success with the two job ids,
a non-success HTTP response, or a thrown error. -/
inductive InitOutcome
  | initOk (threadId runId : String)
  | initHttpErr (code : Nat)
  | initThrew (msg : String)
deriving DecidableEq

/-- Whether initiating the external job failed. -/
def isInitFail : InitOutcome → Bool
  | .initOk _ _ => false
  | _ => true

/-- The error text recorded on an initiate failure: the non-success branch
throws `new Error("Suna AI API error: " + status)`, whose message the catch
block records; a thrown error keeps its own message. -/
def initErrMsg : InitOutcome → String
  | .initOk _ _ => ""
  | .initHttpErr c => "Suna AI API error: " ++ Nat.repr c
  | .initThrew m => m

/-- The response bodies the generate route can produce.  `started` and
`startFailed` carry the body fields the route serialises. -/
inductive GenResponse
  | internalError
  | unauthorized
  | rateLimited
  | noSession
  | taskCreateFailed
  | started (task_id thread_id agent_run_id status : String)
  | startFailed (task_id status error : String)
deriving DecidableEq

/-- HTTP status code attached to each generate-route response. -/
def genStatusCode : GenResponse → Nat
  | .internalError => 500
  | .unauthorized => 401
  | .rateLimited => 429
  | .noSession => 401
  | .taskCreateFailed => 500
  | .started _ _ _ _ => 200
  | .startFailed _ _ _ => 500

/-- Collaborator outcomes for one generate-route call. -/
structure GenEnv where
  bodyOk : Bool
  story_description : String
  authUser : Option String
  rateOk : Bool
  jwt : Bool
  localTaskId : String
  taskInsertOk : Bool
  mappingInsertOk : Bool
  initiate : InitOutcome

/-- The generate-route handler, returning the response plus the post-call
task and mapping rows.  A mapping-insert error throws out to the outer catch
(500) with the task row left in `pending`; an initiate failure sets both rows
to `failed` with the error text and still answers with the local task id and
status `failed`. -/
def generatePOST (env : GenEnv) : GenResponse × Option TaskRow × Option MappingRow :=
  if !env.bodyOk then (.internalError, none, none)
  else
    match env.authUser with
    | none => (.unauthorized, none, none)
    | some uid =>
      if !env.rateOk then (.rateLimited, none, none)
      else if !env.jwt then (.noSession, none, none)
      else if !env.taskInsertOk then (.taskCreateFailed, none, none)
      else
        let task : TaskRow :=
          { id := env.localTaskId, user_id := uid, status := "pending",
            story_description := env.story_description, progress := 0,
            error_message := none, suna_thread_id := none, suna_agent_run_id := none }
        if !env.mappingInsertOk then (.internalError, some task, none)
        else
          let m : MappingRow :=
            { local_task_id := env.localTaskId, suna_thread_id := none,
              suna_agent_run_id := none, status := "pending", error_message := none,
              retry_count := 0, max_retries := 3 }
          match env.initiate with
          | .initOk t r =>
            (.started env.localTaskId t r ("processing"),
              some { task with
                status := "processing",
                suna_thread_id := some t, suna_agent_run_id := some r },
              some { m with
                status := "processing",
                suna_thread_id := some t, suna_agent_run_id := some r })
          | .initHttpErr c =>
            (.startFailed env.localTaskId ("failed") ("Failed to start story generation"),
              some { task with
                status := "failed",
                error_message := some (initErrMsg (.initHttpErr c)) },
              some { m with
                status := "failed",
                error_message := some (initErrMsg (.initHttpErr c)) })
          | .initThrew msg =>
            (.startFailed env.localTaskId ("failed") ("Failed to start story generation"),
              some { task with
                status := "failed",
                error_message := some (initErrMsg (.initThrew msg)) },
              some { m with
                status := "failed",
                error_message := some (initErrMsg (.initThrew msg)) })

/-! ## Helper lemmas -/

lemma mem_closePage {p : StoryPage} {pages : List StoryPage} {cur : Option StoryPage}
    (hp : p ∈ closePage pages cur) : p ∈ pages ∨ (p.text ≠ "" ∧ p.image ≠ "") := by
  cases cur with
  | none => exact Or.inl hp
  | some q =>
    simp only [closePage] at hp
    split_ifs at hp with h
    · rcases List.mem_append.1 hp with h1 | h1
      · exact Or.inl h1
      · rcases List.mem_singleton.1 h1 with rfl
        exact Or.inr h
    · exact Or.inl hp

lemma parseStep_pages (st : PState) (line : List Char) :
    (parseStep st line).pages = st.pages ∨
      (parseStep st line).pages = closePage st.pages st.current := by
  unfold parseStep
  split_ifs
  · exact Or.inl rfl
  · exact Or.inr rfl
  · cases st.current <;> exact Or.inl rfl
  · cases st.current <;> exact Or.inl rfl
  · exact Or.inl rfl

lemma mem_fold_parseStep :
    ∀ (lines : List (List Char)) (st : PState) (p : StoryPage),
      p ∈ (lines.foldl parseStep st).pages →
        p ∈ st.pages ∨ (p.text ≠ "" ∧ p.image ≠ "") := by
  intro lines
  induction lines with
  | nil => exact fun st p hp => Or.inl hp
  | cons l ls ih =>
    intro st p hp
    rcases ih (parseStep st l) p hp with h | h
    · rcases parseStep_pages st l with he | he
      · rw [he] at h
        exact Or.inl h
      · rw [he] at h
        exact mem_closePage h
    · exact Or.inr h

/-- Claim C5: `parseStoryContent` appends a page to the output only when both
its text and image fields are non-empty at the moment the page is closed by
the next page header or by end of input; a page with either field empty is
silently dropped, so a block with a text line but no image line contributes
zero pages. -/
theorem c5_pages_require_both_fields :
    (∀ (content : String) (p : StoryPage), p ∈ (parseStoryContent content).pages →
        p.text ≠ "" ∧ p.image ≠ "") ∧
    parseStoryContent ("第1页：\n文字：你好") = { title := "", pages := [] } := by
  constructor
  · intro content p hp
    have hp2 : p ∈ closePage
        ((((splitNl content.data).map trimChars).filter (fun l => 0 < l.length)).foldl
          parseStep { title := "", pages := [], current := none }).pages
        ((((splitNl content.data).map trimChars).filter (fun l => 0 < l.length)).foldl
          parseStep { title := "", pages := [], current := none }).current := hp
    rcases mem_closePage hp2 with h | h
    · rcases mem_fold_parseStep _ _ _ h with h2 | h2
      · exact absurd h2 (List.not_mem_nil p)
      · exact h2
    · exact h
  · decide

theorem c5_pages_require_both_fields_witness :
    ({ text := "你好", image := "森林" } : StoryPage).text ≠ "" ∧
      ({ text := "你好", image := "森林" } : StoryPage).image ≠ "" :=
  c5_pages_require_both_fields.1 ("标题：小兔\n第1页：\n文字：你好\n图片：森林")
    { text := "你好", image := "森林" } (by decide)

lemma reqSeq_filled :
    ∀ (ts : List Nat) (k t0 c : Nat), 1 ≤ k → k + ts.length ≤ c →
      (∀ t ∈ ts, t ≤ t0 + 60) →
      reqSeq (some ⟨k, t0⟩) c ts = (List.replicate ts.length true, some ⟨k + ts.length, t0⟩) := by
  intro ts
  induction ts with
  | nil => intro k t0 c _ _ _; simp [reqSeq]
  | cons t ts ih =>
    intro k t0 c h1 h2 h3
    have hact : windowActive t ⟨k, t0⟩ = true := by
      simp only [windowActive, decide_eq_true_eq]
      exact h3 t (List.mem_cons_self t ts)
    have hlt : ¬ c ≤ k := by simp at h2; omega
    rw [reqSeq]
    simp only [checkRateLimit, rateLookup, Bool.false_eq_true, if_false, hact, if_true]
    rw [if_neg hlt]
    rw [ih (k + 1) t0 c (by omega) (by simp at h2 ⊢; omega)
        (fun t2 ht2 => h3 t2 (List.mem_cons_of_mem t ht2))]
    simp [List.replicate_succ]
    omega

/-- Claim C6: with requests arriving sequentially within a single window for
ceiling `c`, the first request creates the window with count 1 and is
allowed, requests 2 through `c` each increment the count and are allowed,
the (c+1)-th request inside the window is denied without incrementing, and a
(c+1)-th request after the window has elapsed is allowed with a fresh
window. -/
theorem c6_rate_limit_sequence :
    ∀ (c t0 : Nat) (ts : List Nat) (tDeny tLate : Nat),
      1 ≤ c → ts.length + 1 = c → (∀ t ∈ ts, t ≤ t0 + 60) →
      tDeny ≤ t0 + 60 → t0 + 60 < tLate →
      checkRateLimit t0 c none false = (true, some ⟨1, t0⟩) ∧
      reqSeq (some ⟨1, t0⟩) c ts = (List.replicate ts.length true, some ⟨c, t0⟩) ∧
      checkRateLimit tDeny c (some ⟨c, t0⟩) false = (false, some ⟨c, t0⟩) ∧
      checkRateLimit tLate c (some ⟨c, t0⟩) false = (true, some ⟨1, tLate⟩) := by
  intro c t0 ts tDeny tLate hc hlen hts hDeny hLate
  refine ⟨by simp [checkRateLimit, rateLookup], ?_, ?_, ?_⟩
  · rw [reqSeq_filled ts 1 t0 c (by omega) (by omega) hts,
      (by omega : 1 + ts.length = c)]
  · have hact : windowActive tDeny ⟨c, t0⟩ = true := by
      simp only [windowActive, decide_eq_true_eq]; exact hDeny
    simp [checkRateLimit, rateLookup, hact]
  · have hact : windowActive tLate ⟨c, t0⟩ = false := by
      simp only [windowActive, decide_eq_false_iff_not]; omega
    simp [checkRateLimit, rateLookup, hact]

theorem c6_rate_limit_sequence_witness :
    checkRateLimit 0 2 none false = (true, some ⟨1, 0⟩) ∧
      reqSeq (some ⟨1, 0⟩) 2 [5] = (List.replicate 1 true, some ⟨2, 0⟩) ∧
      checkRateLimit 30 2 (some ⟨2, 0⟩) false = (false, some ⟨2, 0⟩) ∧
      checkRateLimit 100 2 (some ⟨2, 0⟩) false = (true, some ⟨1, 100⟩) :=
  c6_rate_limit_sequence 2 0 [5] 30 100 (by decide) (by decide) (by decide)
    (by decide) (by decide)

/-- Claim C9: when the window lookup fails with a storage error (any error
other than the no-row code `PGRST116`), `checkRateLimit` allows the request
and neither increments a counter nor creates a window row. -/
theorem c9_rate_limit_fail_open :
    ∀ (now maxRequests : Nat) (st : Option WindowRow),
      checkRateLimit now maxRequests st true = (true, st) := by
  intro now maxRequests st
  simp [checkRateLimit, rateLookup]

lemma storybookPageRowsAux_get :
    ∀ (ps : List StoryPage) (sid : String) (i j : Nat)
      (h : j < (storybookPageRowsAux sid i ps).length),
      ((storybookPageRowsAux sid i ps).get ⟨j, h⟩).page_number = i + j + 1 := by
  intro ps
  induction ps with
  | nil => intro sid i j h; simp [storybookPageRowsAux] at h
  | cons p ps ih =>
    intro sid i j h
    cases j with
    | zero => simp [storybookPageRowsAux]
    | succ j2 =>
      simp only [storybookPageRowsAux, List.get_cons_succ]
      rw [ih]
      omega

lemma header_not_title {l : List Char} (h : isPageHeader l = true) :
    strStarts l titleMarker = false := by
  cases l with
  | nil => simp [isPageHeader] at h
  | cons c rest =>
    have hc : c = '第' := by
      have h1 : (c == '第') = true := by
        unfold isPageHeader at h
        simp only [Bool.and_eq_true] at h
        exact h.1.1
      exact eq_of_beq h1
    subst hc
    show titleMarker.isPrefixOf ('第' :: rest) = false
    have hm : titleMarker = '标' :: '题' :: '：' :: [] := by decide
    rw [hm]
    simp [List.isPrefixOf, (by decide : ('标' == '第') = false)]

/-- Claim C10: pages are persisted with `page_number` equal to their 1-based
position in the parsed pages list; the numeral in a page-header line is never
read by the parser (any two header lines act identically), so declared
numbers that are out of order, repeated, or gapped are silently renumbered
1, 2, 3, … in order of appearance. -/
theorem c10_pages_renumbered_sequentially :
    (∀ (sid : String) (pages : List StoryPage) (j : Nat)
        (h : j < (storybookPageRows sid pages).length),
        ((storybookPageRows sid pages).get ⟨j, h⟩).page_number = j + 1) ∧
    (∀ (st : PState) (l1 l2 : List Char), isPageHeader l1 = true → isPageHeader l2 = true →
        parseStep st l1 = parseStep st l2) ∧
    (storybookPageRows ("sb")
        (parseStoryContent ("标题：乱\n第7页：\n文字：甲\n图片：乙\n第3页：\n文字：丙\n图片：丁")).pages).map
      (fun r => r.page_number) = [1, 2] := by
  refine ⟨?_, ?_, by decide⟩
  · intro sid pages j h
    have := storybookPageRowsAux_get pages sid 0 j h
    simpa using this
  · intro st l1 l2 h1 h2
    simp [parseStep, header_not_title h1, header_not_title h2, h1, h2]

theorem c10_pages_renumbered_sequentially_witness :
    ((storybookPageRows ("sb") [{ text := "甲", image := "乙" }]).get ⟨0, by decide⟩).page_number
        = 0 + 1 ∧
      parseStep { title := "", pages := [], current := none } ("第7页：".data)
        = parseStep { title := "", pages := [], current := none } ("第3页：".data) := by
  constructor
  · exact c10_pages_renumbered_sequentially.1 ("sb") [{ text := "甲", image := "乙" }] 0 (by decide)
  · exact c10_pages_renumbered_sequentially.2.1 { title := "", pages := [], current := none }
      ("第7页：".data) ("第3页：".data) (by decide) (by decide)

/-- Claim C4: on a status check for a `processing` task whose mapping has an
agent-run id, the local task row and the mapping row are both written through
before responding exactly when the external poll reports a terminal status
(`completed` or `failed`); when the external status is `running`, or the poll
returns non-success or throws (or no session JWT exists, so no poll runs),
both rows are left unchanged and the handler still responds with the current
local state. -/
theorem c4_status_write_through_iff_terminal :
    ∀ (tid uid : String) (task : TaskRow) (m : MappingRow) (run : String) (jwt : Bool)
      (poll : PollOutcome),
      task.status = "processing" → m.suna_agent_run_id = some run →
      (pollTerminal jwt poll = true →
        statusGET ⟨some tid, some uid, true, some task, some m, jwt, poll⟩ =
          (.statusOk (terminalStatusOf poll) task.progress (pollErrOf poll)
              m.suna_thread_id m.suna_agent_run_id,
            some { task with status := terminalStatusOf poll, error_message := pollErrOf poll },
            some { m with status := terminalStatusOf poll, error_message := pollErrOf poll })) ∧
      (pollTerminal jwt poll = false →
        statusGET ⟨some tid, some uid, true, some task, some m, jwt, poll⟩ =
          (.statusOk task.status task.progress task.error_message
              m.suna_thread_id m.suna_agent_run_id, some task, some m)) := by
  intro tid uid task m run jwt poll htask hrun
  constructor
  · intro hterm
    cases jwt with
    | false => simp [pollTerminal] at hterm
    | true =>
      cases poll with
      | pollNotOk => simp [pollTerminal] at hterm
      | pollThrew msg => simp [pollTerminal] at hterm
      | pollOk s e =>
        simp only [pollTerminal] at hterm
        simp [statusGET, htask, hrun, hterm, terminalStatusOf, pollErrOf]
  · intro hterm
    cases jwt with
    | false => simp [statusGET, htask, hrun]
    | true =>
      cases poll with
      | pollNotOk => simp [statusGET, htask, hrun]
      | pollThrew msg => simp [statusGET, htask, hrun]
      | pollOk s e =>
        simp only [pollTerminal] at hterm
        simp [statusGET, htask, hrun, hterm]

theorem c4_status_write_through_iff_terminal_witness :
    (pollTerminal true (.pollOk ("running") none) = true →
      statusGET ⟨some ("t1"), some ("u1"), true,
          some { id := "t1", user_id := "u1", status := "processing",
                 story_description := "d", progress := 0, error_message := none,
                 suna_thread_id := some "th", suna_agent_run_id := some "r1" },
          some { local_task_id := "t1", suna_thread_id := some "th",
                 suna_agent_run_id := some "r1", status := "processing",
                 error_message := none, retry_count := 0, max_retries := 3 },
          true, .pollOk ("running") none⟩ =
        (.statusOk (terminalStatusOf (.pollOk ("running") none)) 0
            (pollErrOf (.pollOk ("running") none)) (some "th") (some "r1"),
          some { id := "t1", user_id := "u1",
                 status := terminalStatusOf (.pollOk ("running") none),
                 story_description := "d", progress := 0,
                 error_message := pollErrOf (.pollOk ("running") none),
                 suna_thread_id := some "th", suna_agent_run_id := some "r1" },
          some { local_task_id := "t1", suna_thread_id := some "th",
                 suna_agent_run_id := some "r1",
                 status := terminalStatusOf (.pollOk ("running") none),
                 error_message := pollErrOf (.pollOk ("running") none),
                 retry_count := 0, max_retries := 3 })) ∧
    (pollTerminal true (.pollOk ("running") none) = false →
      statusGET ⟨some ("t1"), some ("u1"), true,
          some { id := "t1", user_id := "u1", status := "processing",
                 story_description := "d", progress := 0, error_message := none,
                 suna_thread_id := some "th", suna_agent_run_id := some "r1" },
          some { local_task_id := "t1", suna_thread_id := some "th",
                 suna_agent_run_id := some "r1", status := "processing",
                 error_message := none, retry_count := 0, max_retries := 3 },
          true, .pollOk ("running") none⟩ =
        (.statusOk ("processing") 0 none (some "th") (some "r1"),
          some { id := "t1", user_id := "u1", status := "processing",
                 story_description := "d", progress := 0, error_message := none,
                 suna_thread_id := some "th", suna_agent_run_id := some "r1" },
          some { local_task_id := "t1", suna_thread_id := some "th",
                 suna_agent_run_id := some "r1", status := "processing",
                 error_message := none, retry_count := 0, max_retries := 3 })) :=
  c4_status_write_through_iff_terminal ("t1") ("u1")
    { id := "t1", user_id := "u1", status := "processing", story_description := "d",
      progress := 0, error_message := none, suna_thread_id := some "th",
      suna_agent_run_id := some "r1" }
    { local_task_id := "t1", suna_thread_id := some "th", suna_agent_run_id := some "r1",
      status := "processing", error_message := none, retry_count := 0, max_retries := 3 }
    ("r1") true (.pollOk ("running") none) (by decide) (by decide)

/-- Claim C8: when initiating the external job fails after the task was
created — a non-success response (which the route turns into a thrown
`Suna AI API error: <status>`) or any thrown error — both the task row and
the mapping row are set to status `failed` with the error text recorded, and
the response body still carries the local task id together with status
`failed` rather than only a raised error. -/
theorem c8_submit_failure_records_and_returns_failed :
    ∀ (desc uid taskId : String) (outcome : InitOutcome),
      isInitFail outcome = true →
      generatePOST ⟨true, desc, some uid, true, true, taskId, true, true, outcome⟩ =
        (.startFailed taskId ("failed") ("Failed to start story generation"),
          some { id := taskId, user_id := uid, status := "failed", story_description := desc,
                 progress := 0, error_message := some (initErrMsg outcome),
                 suna_thread_id := none, suna_agent_run_id := none },
          some { local_task_id := taskId, suna_thread_id := none, suna_agent_run_id := none,
                 status := "failed", error_message := some (initErrMsg outcome),
                 retry_count := 0, max_retries := 3 }) := by
  intro desc uid taskId outcome hfail
  cases outcome with
  | initOk t r => simp [isInitFail] at hfail
  | initHttpErr c => rfl
  | initThrew msg => rfl

theorem c8_submit_failure_records_and_returns_failed_witness :
    generatePOST ⟨true, "一个故事", some ("u1"), true, true, "t1", true, true,
        .initHttpErr 502⟩ =
      (.startFailed ("t1") ("failed") ("Failed to start story generation"),
        some { id := "t1", user_id := "u1", status := "failed",
               story_description := "一个故事", progress := 0,
               error_message := some (initErrMsg (.initHttpErr 502)),
               suna_thread_id := none, suna_agent_run_id := none },
        some { local_task_id := "t1", suna_thread_id := none, suna_agent_run_id := none,
               status := "failed", error_message := some (initErrMsg (.initHttpErr 502)),
               retry_count := 0, max_retries := 3 }) :=
  c8_submit_failure_records_and_returns_failed ("一个故事") ("u1") ("t1")
    (.initHttpErr 502) (by decide)

lemma find?_append_singleton {α : Type} (p : α → Bool) (l : List α) (a : α)
    (hl : l.find? p = none) (ha : p a = true) : (l ++ [a]).find? p = some a := by
  induction l with
  | nil => simp [List.find?, ha]
  | cons x xs ih =>
    by_cases hpx : p x = true
    · rw [List.find?_cons_of_pos _ hpx] at hl
      exact absurd hl (by simp)
    · have hpx2 : ¬ (p x = true) := hpx
      rw [List.find?_cons_of_neg _ hpx2] at hl
      rw [List.cons_append, List.find?_cons_of_neg _ hpx2]
      exact ih hl

lemma resultGET_existing_eq (tid uid : String) (task : TaskRow) (m : MappingRow)
    (run : String) (chunks : List String) (nsid : String) (sOk pOk : Bool)
    (db : ResultDB) (sb : StorybookRow)
    (htask : task.status = "completed") (hrun : m.suna_agent_run_id = some run)
    (hfind : db.storybooks.find? (fun x => x.generation_task_id == tid) = some sb) :
    resultGET ⟨some tid, some uid, true, some task, some m, true, true, chunks, nsid,
        sOk, pOk⟩ db =
      (.existing sb (db.storybook_pages.filter (fun p => p.storybook_id == sb.id))
          (reconcile chunks).result, db, ⟨true, true⟩) := by
  simp [resultGET, htask, hrun, hfind]

lemma resultGET_created_eq (tid uid : String) (task : TaskRow) (m : MappingRow)
    (run : String) (chunks : List String) (nsid : String) (db : ResultDB)
    (htask : task.status = "completed") (hrun : m.suna_agent_run_id = some run)
    (hfind : db.storybooks.find? (fun x => x.generation_task_id == tid) = none)
    (htp : (parseStoryContent (reconcile chunks).result).title ≠ "")
    (hpg : 0 < (parseStoryContent (reconcile chunks).result).pages.length) :
    resultGET ⟨some tid, some uid, true, some task, some m, true, true, chunks, nsid,
        true, true⟩ db =
      (.created
          { id := nsid, title := (parseStoryContent (reconcile chunks).result).title,
            description := task.story_description, generation_task_id := tid }
          (storybookPageRows nsid (parseStoryContent (reconcile chunks).result).pages)
          (reconcile chunks).result,
        { storybooks := db.storybooks ++
            [{ id := nsid, title := (parseStoryContent (reconcile chunks).result).title,
               description := task.story_description, generation_task_id := tid }],
          storybook_pages := db.storybook_pages ++
            storybookPageRows nsid (parseStoryContent (reconcile chunks).result).pages,
          user_storybooks := db.user_storybooks ++ [(uid, nsid)] },
        ⟨true, true⟩) := by
  have hcond : (parseStoryContent (reconcile chunks).result).title ≠ "" ∧
      0 < (parseStoryContent (reconcile chunks).result).pages.length := ⟨htp, hpg⟩
  simp [resultGET, htask, hrun, hfind, hcond]

lemma resultGET_parseFail_eq (tid uid : String) (task : TaskRow) (m : MappingRow)
    (run : String) (chunks : List String) (nsid : String) (sbOk pOk : Bool) (db : ResultDB)
    (htask : task.status = "completed") (hrun : m.suna_agent_run_id = some run)
    (hfind : db.storybooks.find? (fun x => x.generation_task_id == tid) = none)
    (hnc : ¬ ((parseStoryContent (reconcile chunks).result).title ≠ "" ∧
        0 < (parseStoryContent (reconcile chunks).result).pages.length)) :
    resultGET ⟨some tid, some uid, true, some task, some m, true, true, chunks, nsid,
        sbOk, pOk⟩ db =
      (.parseFailed (reconcile chunks).result, db, ⟨true, true⟩) := by
  simp [resultGET, htask, hrun, hfind, hnc]

lemma resultGET_orphan_eq (tid uid : String) (task : TaskRow) (m : MappingRow)
    (run : String) (chunks : List String) (nsid : String) (db : ResultDB)
    (htask : task.status = "completed") (hrun : m.suna_agent_run_id = some run)
    (hfind : db.storybooks.find? (fun x => x.generation_task_id == tid) = none)
    (htp : (parseStoryContent (reconcile chunks).result).title ≠ "")
    (hpg : 0 < (parseStoryContent (reconcile chunks).result).pages.length) :
    resultGET ⟨some tid, some uid, true, some task, some m, true, true, chunks, nsid,
        true, false⟩ db =
      (.fetchFailed,
        { storybooks := db.storybooks ++
            [{ id := nsid, title := (parseStoryContent (reconcile chunks).result).title,
               description := task.story_description, generation_task_id := tid }],
          storybook_pages := db.storybook_pages,
          user_storybooks := db.user_storybooks },
        ⟨true, true⟩) := by
  have hcond : (parseStoryContent (reconcile chunks).result).title ≠ "" ∧
      0 < (parseStoryContent (reconcile chunks).result).pages.length := ⟨htp, hpg⟩
  simp [resultGET, htask, hrun, hfind, hcond]

/-- A completed task row used for concrete runs of the result route. -/
def taskFixture : TaskRow :=
  { id := "t1", user_id := "u1", status := "completed", story_description := "一个故事",
    progress := 0, error_message := none, suna_thread_id := some "th",
    suna_agent_run_id := some "r1" }

/-- The matching mapping row for `taskFixture`. -/
def mapFixture : MappingRow :=
  { local_task_id := "t1", suna_thread_id := some "th", suna_agent_run_id := some "r1",
    status := "completed", error_message := none, retry_count := 0, max_retries := 3 }

/-- One SSE read chunk whose frame carries a complete parseable story. -/
def storyChunk : String :=
  "data: \x7b\"type\":\"message\",\"content\":\"标题：小兔\\n第1页：\\n文字：你好\\n图片：森林\",\"role\":\"assistant\"\x7d"

example : (reconcile [storyChunk]).result = "标题：小兔\n第1页：\n文字：你好\n图片：森林" := by
  decide

/-- Claim C1 counterexample: on a completed task with no storybook yet, a
parse-success run whose pages insert fails reaches a database state holding
the new storybook row with zero page rows — the write is not atomic — while
the request answers 500. -/
theorem c1_pages_write_failure_leaves_orphan_storybook :
    resultGET ⟨some ("t1"), some ("u1"), true, some taskFixture, some mapFixture, true, true,
        [storyChunk], "sb1", true, false⟩
      { storybooks := [], storybook_pages := [], user_storybooks := [] } =
      (.fetchFailed,
        { storybooks := [{ id := "sb1", title := "小兔", description := "一个故事",
                           generation_task_id := "t1" }],
          storybook_pages := [], user_storybooks := [] },
        ⟨true, true⟩) := by
  decide

/-- Claim C1 as amended: on a completed task with no storybook yet, a new
storybook and its pages are persisted iff parsing the accumulated text yields
a non-empty title and at least one page, and on parse failure the response
carries the raw text with a parse-failure flag and nothing is persisted; the
two writes are however sequential, not atomic: the storybook row is inserted
first, and if the pages insert then fails the storybook row remains without
its pages and the request answers 500. -/
theorem c1_persistence_iff_parse_success :
    ∀ (tid uid : String) (task : TaskRow) (m : MappingRow) (run : String)
      (chunks : List String) (nsid : String) (db : ResultDB),
      task.status = "completed" → m.suna_agent_run_id = some run →
      db.storybooks.find? (fun x => x.generation_task_id == tid) = none →
      (((parseStoryContent (reconcile chunks).result).title ≠ "" ∧
          0 < (parseStoryContent (reconcile chunks).result).pages.length) →
        resultGET ⟨some tid, some uid, true, some task, some m, true, true, chunks, nsid,
            true, true⟩ db =
          (.created
              { id := nsid, title := (parseStoryContent (reconcile chunks).result).title,
                description := task.story_description, generation_task_id := tid }
              (storybookPageRows nsid (parseStoryContent (reconcile chunks).result).pages)
              (reconcile chunks).result,
            { storybooks := db.storybooks ++
                [{ id := nsid,
                   title := (parseStoryContent (reconcile chunks).result).title,
                   description := task.story_description, generation_task_id := tid }],
              storybook_pages := db.storybook_pages ++
                storybookPageRows nsid (parseStoryContent (reconcile chunks).result).pages,
              user_storybooks := db.user_storybooks ++ [(uid, nsid)] },
            ⟨true, true⟩)) ∧
      (¬ ((parseStoryContent (reconcile chunks).result).title ≠ "" ∧
          0 < (parseStoryContent (reconcile chunks).result).pages.length) →
        resultGET ⟨some tid, some uid, true, some task, some m, true, true, chunks, nsid,
            true, true⟩ db =
          (.parseFailed (reconcile chunks).result, db, ⟨true, true⟩)) ∧
      (((parseStoryContent (reconcile chunks).result).title ≠ "" ∧
          0 < (parseStoryContent (reconcile chunks).result).pages.length) →
        resultGET ⟨some tid, some uid, true, some task, some m, true, true, chunks, nsid,
            true, false⟩ db =
          (.fetchFailed,
            { storybooks := db.storybooks ++
                [{ id := nsid,
                   title := (parseStoryContent (reconcile chunks).result).title,
                   description := task.story_description, generation_task_id := tid }],
              storybook_pages := db.storybook_pages,
              user_storybooks := db.user_storybooks },
            ⟨true, true⟩)) := by
  intro tid uid task m run chunks nsid db htask hrun hfind
  refine ⟨fun h => resultGET_created_eq tid uid task m run chunks nsid db
      htask hrun hfind h.1 h.2,
    fun h => resultGET_parseFail_eq tid uid task m run chunks nsid true true db
      htask hrun hfind h,
    fun h => resultGET_orphan_eq tid uid task m run chunks nsid db
      htask hrun hfind h.1 h.2⟩

theorem c1_persistence_iff_parse_success_witness :
    resultGET ⟨some ("t1"), some ("u1"), true, some taskFixture, some mapFixture, true, true,
        [storyChunk], "sb1", true, true⟩
      { storybooks := [], storybook_pages := [], user_storybooks := [] } =
      (.created
          { id := "sb1", title := (parseStoryContent (reconcile [storyChunk]).result).title,
            description := taskFixture.story_description, generation_task_id := "t1" }
          (storybookPageRows ("sb1") (parseStoryContent (reconcile [storyChunk]).result).pages)
          (reconcile [storyChunk]).result,
        { storybooks := ([] : List StorybookRow) ++
            [{ id := "sb1",
               title := (parseStoryContent (reconcile [storyChunk]).result).title,
               description := taskFixture.story_description, generation_task_id := "t1" }],
          storybook_pages := ([] : List PageRow) ++
            storybookPageRows ("sb1") (parseStoryContent (reconcile [storyChunk]).result).pages,
          user_storybooks := ([] : List (String × String)) ++ [("u1", "sb1")] },
        ⟨true, true⟩) :=
  (c1_persistence_iff_parse_success ("t1") ("u1") taskFixture mapFixture ("r1")
    [storyChunk] ("sb1") { storybooks := [], storybook_pages := [], user_storybooks := [] }
    (by decide) (by decide) (by decide)).1 (by decide)

/-- Claim C2 counterexample: on a completed task that already has a
storybook, the result route still opens the result stream, runs the
reconciler and runs the parser before the existing-document check — the
effects flags of the run are `⟨true, true⟩` even though the existing
document is returned. -/
theorem c2_stream_opened_despite_existing_document :
    resultGET ⟨some ("t1"), some ("u1"), true, some taskFixture, some mapFixture, true, true,
        [storyChunk], "sbX", true, true⟩
      { storybooks := [{ id := "sb9", title := "旧标题", description := "d",
                         generation_task_id := "t1" }],
        storybook_pages := [], user_storybooks := [] } =
      (.existing { id := "sb9", title := "旧标题", description := "d",
                   generation_task_id := "t1" } []
          ("标题：小兔\n第1页：\n文字：你好\n图片：森林"),
        { storybooks := [{ id := "sb9", title := "旧标题", description := "d",
                           generation_task_id := "t1" }],
          storybook_pages := [], user_storybooks := [] },
        ⟨true, true⟩) := by
  decide

/-- Claim C2 as amended: on a completed task for which a storybook already
exists, the result route returns that document unchanged and creates no
duplicate row — in particular the second of two sequential fetches returns
the document the first one created and leaves the database untouched — but
the result stream is still opened, reconciled and parsed before the
existing-document check on every fetch. -/
theorem c2_existing_document_returned_unchanged :
    ∀ (tid uid : String) (task : TaskRow) (m : MappingRow) (run : String)
      (chunks : List String) (nsid : String) (sOk pOk : Bool) (db : ResultDB),
      task.status = "completed" → m.suna_agent_run_id = some run →
      (∀ sb, db.storybooks.find? (fun x => x.generation_task_id == tid) = some sb →
        resultGET ⟨some tid, some uid, true, some task, some m, true, true, chunks, nsid,
            sOk, pOk⟩ db =
          (.existing sb (db.storybook_pages.filter (fun p => p.storybook_id == sb.id))
              (reconcile chunks).result, db, ⟨true, true⟩)) ∧
      (db.storybooks.find? (fun x => x.generation_task_id == tid) = none →
        ((parseStoryContent (reconcile chunks).result).title ≠ "" ∧
          0 < (parseStoryContent (reconcile chunks).result).pages.length) →
        resultGET ⟨some tid, some uid, true, some task, some m, true, true, chunks, nsid,
            sOk, pOk⟩
          ((resultGET ⟨some tid, some uid, true, some task, some m, true, true, chunks,
              nsid, true, true⟩ db).2.1) =
          (.existing
              { id := nsid, title := (parseStoryContent (reconcile chunks).result).title,
                description := task.story_description, generation_task_id := tid }
              (((resultGET ⟨some tid, some uid, true, some task, some m, true, true,
                  chunks, nsid, true, true⟩ db).2.1).storybook_pages.filter
                (fun p => p.storybook_id == nsid))
              (reconcile chunks).result,
            (resultGET ⟨some tid, some uid, true, some task, some m, true, true, chunks,
              nsid, true, true⟩ db).2.1,
            ⟨true, true⟩)) := by
  intro tid uid task m run chunks nsid sOk pOk db htask hrun
  constructor
  · intro sb hfind
    exact resultGET_existing_eq tid uid task m run chunks nsid sOk pOk db sb
      htask hrun hfind
  · intro hfind hcond
    have h1 := resultGET_created_eq tid uid task m run chunks nsid db
      htask hrun hfind hcond.1 hcond.2
    rw [h1]
    refine resultGET_existing_eq tid uid task m run chunks nsid sOk pOk _ { id := nsid, title := (parseStoryContent (reconcile chunks).result).title, description := task.story_description, generation_task_id := tid } htask hrun ?_
    exact find?_append_singleton _ db.storybooks _ hfind (by simp)

theorem c2_existing_document_returned_unchanged_witness :
    resultGET ⟨some ("t1"), some ("u1"), true, some taskFixture, some mapFixture, true, true,
        [storyChunk], "sbX", true, true⟩
      { storybooks := [{ id := "sb9", title := "旧标题", description := "d",
                         generation_task_id := "t1" }],
        storybook_pages := [], user_storybooks := [] } =
      (.existing { id := "sb9", title := "旧标题", description := "d",
                   generation_task_id := "t1" }
          (List.filter (fun p => p.storybook_id == ("sb9" : String)) ([] : List PageRow))
          (reconcile [storyChunk]).result,
        { storybooks := [{ id := "sb9", title := "旧标题", description := "d",
                           generation_task_id := "t1" }],
          storybook_pages := [], user_storybooks := [] },
        ⟨true, true⟩) :=
  (c2_existing_document_returned_unchanged ("t1") ("u1") taskFixture mapFixture ("r1")
    [storyChunk] ("sbX") true true
    { storybooks := [{ id := "sb9", title := "旧标题", description := "d",
                       generation_task_id := "t1" }],
      storybook_pages := [], user_storybooks := [] }
    (by decide) (by decide)).1
    { id := "sb9", title := "旧标题", description := "d", generation_task_id := "t1" }
    (by decide)

/-- One complete SSE frame on a single line, as produced by the stream. -/
def sseFrame : String :=
  "data: \x7b\"type\":\"message\",\"content\":\"你好\",\"role\":\"assistant\"\x7d"

/-- Claim C3 counterexample: the accumulated text is not independent of the
way the stream is split into read chunks — the same byte sequence delivered
whole accumulates its content, but delivered split inside the `data:` line
(here between `mess` and `age`) accumulates nothing. -/
theorem c3_accumulation_depends_on_chunking :
    String.mk (sseFrame.data.take 17) ++ String.mk (sseFrame.data.drop 17) = sseFrame ∧
    (reconcile [sseFrame]).result = "你好" ∧
    (reconcile [String.mk (sseFrame.data.take 17), String.mk (sseFrame.data.drop 17)]).result
      = "" := by
  decide

/-- Claim C3 as amended: the read loop keeps no carry-over buffer between
chunks; each chunk is split into lines and processed on its own, so a frame
delivered whole is accumulated but a frame split anywhere in its interior
across two read buffers contributes nothing — the accumulated text depends on
the chunk boundaries. -/
theorem c3_split_frame_content_lost :
    (reconcile [sseFrame]).result = "你好" ∧
    ∀ k, k < sseFrame.data.length → 0 < k →
      (reconcile [String.mk (sseFrame.data.take k), String.mk (sseFrame.data.drop k)]).result
        = "" := by
  exact ⟨by decide, by decide⟩

theorem c3_split_frame_content_lost_witness :
    (reconcile [String.mk (sseFrame.data.take 17), String.mk (sseFrame.data.drop 17)]).result
      = "" :=
  c3_split_frame_content_lost.2 17 (by decide) (by decide)

/-- Claim C7 counterexample: a status check on an existing task whose mapping
is absent responds with HTTP 200 (and an error field in the body), not
404. -/
theorem c7_status_route_mapping_absent_returns_200 :
    (statusGET ⟨some ("t1"), some ("u1"), true,
        some { id := "t1", user_id := "u1", status := "processing",
               story_description := "d", progress := 0, error_message := none,
               suna_thread_id := none, suna_agent_run_id := none },
        none, false, .pollNotOk⟩).1 = .mappingMissing ("processing") ∧
    statusStatusCode (statusGET ⟨some ("t1"), some ("u1"), true,
        some { id := "t1", user_id := "u1", status := "processing",
               story_description := "d", progress := 0, error_message := none,
               suna_thread_id := none, suna_agent_run_id := none },
        none, false, .pollNotOk⟩).1 = 200 := by
  decide

/-- Claim C7 as amended: a missing task yields HTTP 404 on both the status
route and the result route; on the result route — where the mapping is only
consulted once the task is `completed` — an absent mapping or a mapping
without an agent-run id also yields 404; but on the status route an absent
mapping yields HTTP 200 with an error field in the body. -/
theorem c7_not_found_status_codes :
    (∀ (tid uid : String) (m : Option MappingRow) (jwt : Bool) (poll : PollOutcome),
        statusStatusCode (statusGET ⟨some tid, some uid, true, none, m, jwt, poll⟩).1
          = 404) ∧
    (∀ (tid uid nsid : String) (m : Option MappingRow) (jwt sOk sbOk pOk : Bool)
        (chunks : List String) (db : ResultDB),
        resultStatusCode (resultGET ⟨some tid, some uid, true, none, m, jwt, sOk, chunks,
            nsid, sbOk, pOk⟩ db).1 = 404) ∧
    (∀ (tid uid nsid : String) (task : TaskRow) (jwt sOk sbOk pOk : Bool)
        (chunks : List String) (db : ResultDB),
        task.status = "completed" →
        resultStatusCode (resultGET ⟨some tid, some uid, true, some task, none, jwt, sOk,
            chunks, nsid, sbOk, pOk⟩ db).1 = 404) ∧
    (∀ (tid uid nsid : String) (task : TaskRow) (m : MappingRow) (jwt sOk sbOk pOk : Bool)
        (chunks : List String) (db : ResultDB),
        task.status = "completed" → m.suna_agent_run_id = none →
        resultStatusCode (resultGET ⟨some tid, some uid, true, some task, some m, jwt, sOk,
            chunks, nsid, sbOk, pOk⟩ db).1 = 404) ∧
    (∀ (tid uid : String) (task : TaskRow) (jwt : Bool) (poll : PollOutcome),
        statusStatusCode (statusGET ⟨some tid, some uid, true, some task, none, jwt,
            poll⟩).1 = 200) := by
  refine ⟨?_, ?_, ?_, ?_, ?_⟩
  · intro tid uid m jwt poll
    simp [statusGET, statusStatusCode]
  · intro tid uid nsid m jwt sOk sbOk pOk chunks db
    simp [resultGET, resultStatusCode]
  · intro tid uid nsid task jwt sOk sbOk pOk chunks db htask
    simp [resultGET, resultStatusCode, htask]
  · intro tid uid nsid task m jwt sOk sbOk pOk chunks db htask hrun
    simp [resultGET, resultStatusCode, htask, hrun]
  · intro tid uid task jwt poll
    simp [statusGET, statusStatusCode]

theorem c7_not_found_status_codes_witness :
    statusStatusCode (statusGET ⟨some ("t9"), some ("u9"), true, none, none, false,
        .pollNotOk⟩).1 = 404 ∧
      resultStatusCode (resultGET ⟨some ("t9"), some ("u9"), true, some taskFixture, none,
          false, false, [], "n", false, false⟩
        { storybooks := [], storybook_pages := [], user_storybooks := [] }).1 = 404 :=
  ⟨c7_not_found_status_codes.1 ("t9") ("u9") none false .pollNotOk,
    c7_not_found_status_codes.2.2.1 ("t9") ("u9") ("n") taskFixture false false false false
      [] { storybooks := [], storybook_pages := [], user_storybooks := [] } (by decide)⟩
